import Mathlib

/-!
Shallow embedding of the CSV ingestion logic of this repository.

Two loaders exist in the source:
* `streamlit_app.py`: `load_file` / `load_data` parse each discovered
  `*.csv` file with `pd.read_csv(path, delimiter=';', on_bad_lines='warn',
  engine='python')`, catch per-file exceptions, emit Streamlit
  diagnostics, keep the non-empty frames and `pd.concat` them with
  `ignore_index=True`; the page then halts (`st.stop`) behind a single
  `st.error` whenever the combined frame is empty.
* `data.py`: a bare variant with no error handling at all.

A pandas `DataFrame` is modelled as a column list, a row index and a row
list of string fields; `pd.read_csv` is modelled at the delimiter-splitting
level (quoting is not exercised by anything verified here), with the
pandas outcomes relevant to the source: `EmptyDataError` when there is no
parseable content, implicit-index inference when the first data row is
wider than the header, bad-line handling for a data line wider than the
inferred row width, NaN padding for a line with fewer fields.
-/

namespace ChatBot

/-- A pandas `DataFrame`: named columns, a row index, and rows of fields.
`pd.read_csv` produces a fresh 0-based `RangeIndex`, and so does
`pd.concat(..., ignore_index=True)`. A field value is a string; the NaN
used by pandas to pad short rows is modelled as `""`. -/
structure DataFrame where
  cols : List String
  index : List Nat
  rows : List (List String)
deriving Repr, DecidableEq

/-- `pd.DataFrame()` — the empty frame returned on every error path. -/
def DataFrame.emptyDF : DataFrame := ⟨[], [], []⟩

/-- `df.empty`: true iff some axis has length 0. -/
def DataFrame.isEmpty (d : DataFrame) : Bool := d.rows.isEmpty || d.cols.isEmpty

/-- State of a file at read time: present with its text lines, or missing
(deleted between discovery and the read — the `FileNotFoundError` case of
`load_file`). -/
inductive FileState where
  | present (lines : List String)
  | missing
deriving Repr, DecidableEq

/-- A directory entry: file name plus file state. The order of the entry
list is directory discovery order (the order `Path.glob` / `Path.iterdir`
yields). -/
structure DirEntry where
  name : String
  state : FileState
deriving Repr, DecidableEq

/-- The filesystem: an association of directory paths to their entries.
A path absent from the association is not a directory (`is_dir()` is
false there, and `iterdir` raises). -/
abbrev FileSystem := List (String × List DirEntry)

/-- Directory lookup: `Path(folder).is_dir()` plus its listing. -/
def lookupDir (fsys : FileSystem) (folder : String) : Option (List DirEntry) :=
  List.lookup folder fsys

/-- One Streamlit diagnostic emitted by the loader or the page
(`st.error` / `st.warning` / `st.success`), carrying the data that the
source interpolates into the message text. -/
inductive Message where
  | fileNotFound (path : String)
  | emptyFile (name : String)
  | loadError (name : String)
  | dirNotFound (folder : String)
  | noCsvFiles (folder : String)
  | noUsableData
  | successCombined (totalRows : Nat)
  | concatFailed
  | noDataLoaded
deriving Repr, DecidableEq

namespace App

/-- Split one text line into fields at a delimiter character — the
field-splitting core of `pd.read_csv`. Mirrors `String.splitOn`:
the result is never empty, and a line with no delimiter is one field. -/
def splitFields (sep : Char) : List Char → List (List Char)
  | [] => [[]]
  | c :: cs =>
    let r := splitFields sep cs
    if c == sep then [] :: r
    else
      match r with
      | [] => [[c]]
      | f :: fs => (c :: f) :: fs

/-- The fields of a line under the `delimiter=';'` of `load_file`. -/
def semiFields (line : String) : List String :=
  (splitFields ';' line.data).map (fun cs => String.mk cs)

/-- `pd.read_csv(path, delimiter=';', on_bad_lines='warn', engine='python')`.
`none` is the `pd.errors.EmptyDataError` outcome (no parseable content,
blank lines skipped). Otherwise the first line is the header, and pandas
performs implicit-index inference on the first data row: when that row
has `extra > 0` more fields than the header, the first `extra` fields of
every data row are index labels, and the expected row width becomes
`header + extra`. A data line wider than the expected width is a bad
line — warned about on stderr and skipped — and a line with fewer fields
is padded at the end with NaN (`""`); the leading index fields are then
stripped from each row. The index-label values themselves are not
retained in the model: every downstream use of the per-file frame
(`df.empty`, `pd.concat(..., ignore_index=True)`) ignores them, so the
frame keeps a positional index. -/
def read_csv (lines : List String) : Option DataFrame :=
  match lines.filter (fun l => !l.data.isEmpty) with
  | [] => none
  | header :: rest =>
    let cols := semiFields header
    let extra :=
      match rest with
      | [] => 0
      | first :: _ => (semiFields first).length - cols.length
    let keep := rest.filterMap (fun l =>
      let fs := semiFields l
      if cols.length + extra < fs.length then none
      else some ((fs ++ List.replicate (cols.length + extra - fs.length) "").drop extra))
    some ⟨cols, List.range keep.length, keep⟩

/-- `load_file` of `streamlit_app.py`: parse one file, catching
`FileNotFoundError` and `pd.errors.EmptyDataError`; every failure
returns `pd.DataFrame()` together with the diagnostic it emits.
(The final `except Exception` branch of the source is unreachable in
this model: no encoding or I/O fault besides a missing file is
representable.) -/
def load_file (name : String) (st : FileState) : DataFrame × List Message :=
  match st with
  | .missing => (DataFrame.emptyDF, [.fileNotFound name])
  | .present lines =>
    match read_csv lines with
    | some df => (df, [])
    | none => (DataFrame.emptyDF, [.emptyFile name])

/-- Membership test of `folder_path.glob("*.csv")`: the entry name ends
in `.csv`. -/
def globCsv (name : String) : Bool := ".csv".data.isSuffixOf name.data

/-- Union of the column lists in first-appearance order (the outer-join
column alignment `pd.concat` performs with `sort=False`). -/
def colsUnion (dfs : List DataFrame) : List String :=
  dfs.foldl (fun acc d => acc ++ d.cols.filter (fun c => !acc.contains c)) []

/-- Re-express one row of a frame whose columns are `dcols` under the
combined columns `cols`, filling absent columns with NaN (`""`). -/
def alignRow (cols dcols : List String) (row : List String) : List String :=
  cols.map (fun c =>
    match dcols.findIdx? (fun c2 => c2 == c) with
    | some i => row.getD i ""
    | none => "")

/-- `pd.concat(dfs, ignore_index=True)`: frames with identical columns
are stacked positionally; otherwise columns are outer-joined in
first-appearance order. Either way the result carries a fresh 0-based
index. -/
def pdConcat (dfs : List DataFrame) : DataFrame :=
  match dfs with
  | [] => DataFrame.emptyDF
  | d0 :: _ =>
    if dfs.all (fun d => d.cols == d0.cols) then
      let rows := dfs.flatMap (fun d => d.rows)
      ⟨d0.cols, List.range rows.length, rows⟩
    else
      let cols := colsUnion dfs
      let rows := dfs.flatMap (fun d => d.rows.map (alignRow cols d.cols))
      ⟨cols, List.range rows.length, rows⟩

/-- `load_data` of `streamlit_app.py`: check the folder, glob `*.csv`,
load every discovered file (collecting the diagnostics each emits, in
call order), keep the frames that are not empty, and concatenate them
with `ignore_index=True`. (The `except` around `pd.concat` is
unreachable in this model: the modelled concat is total.) -/
def load_data (fsys : FileSystem) (folder : String) : DataFrame × List Message :=
  match lookupDir fsys folder with
  | none => (DataFrame.emptyDF, [.dirNotFound folder])
  | some dir =>
    let csv_files := dir.filter (fun e => globCsv e.name)
    if csv_files.isEmpty then
      (DataFrame.emptyDF, [.noCsvFiles folder])
    else
      let results := csv_files.map (fun e => load_file e.name e.state)
      let fileMsgs := results.flatMap (fun r => r.2)
      let all_datasets := (results.map (fun r => r.1)).filter (fun d => !d.isEmpty)
      if all_datasets.isEmpty then
        (DataFrame.emptyDF, fileMsgs ++ [.noUsableData])
      else
        let df := pdConcat all_datasets
        (df, fileMsgs ++ [.successCombined df.rows.length])

/-- What the page reaches after `df = load_data(DATA_FOLDER)`:
either `st.stop()` was executed, or the page proceeds with the frame. -/
inductive FlowOutcome where
  | halt
  | proceed (df : DataFrame)
deriving Repr, DecidableEq

/-- Only the `proceed` state can ever reach the `SmartDataframe.chat`
call further down the page. -/
def FlowOutcome.attemptsQuery : FlowOutcome → Bool
  | .halt => false
  | .proceed _ => true

/-- Lines 125–128 of `streamlit_app.py`: load, and on an empty frame
emit one `st.error` and `st.stop()`; otherwise continue with the frame. -/
def mainFlow (fsys : FileSystem) (folder : String) : FlowOutcome × List Message :=
  let r := load_data fsys folder
  if r.1.isEmpty then (.halt, r.2 ++ [.noDataLoaded]) else (.proceed r.1, r.2)

end App

namespace DataPy

/-- `pathlib.PurePath.suffix`: the extension starting at the last dot of
the name, provided that dot is neither the first nor the last character. -/
def pathSuffix (name : String) : String :=
  match ((List.range name.data.length).filter
      (fun i => name.data.getD i ' ' == '.')).getLast? with
  | some i =>
    if 0 < i && i + 1 < name.data.length then String.mk (name.data.drop i) else ""
  | none => ""

/-- Fields of a line under pandas' default comma delimiter. -/
def commaFields (line : String) : List String :=
  (App.splitFields ',' line.data).map (fun cs => String.mk cs)

/-- A Python exception escaping the loader of `data.py`. -/
inductive PyError where
  | fileNotFoundError (path : String)
  | emptyDataError
  | parserError
  | valueErrorNoObjects
deriving Repr, DecidableEq

/-- `pd.read_csv(path)` with all defaults: comma delimiter,
`EmptyDataError` on a file with no parseable content, the same
implicit-index inference on the first data row as the Streamlit loader's
parse (surplus leading fields of every row become index labels, not
retained in the model), an error on a data line wider than the expected
width (`on_bad_lines` defaults to raising), NaN padding for a line with
fewer fields. -/
def read_csv (lines : List String) : Except PyError DataFrame :=
  match lines.filter (fun l => !l.data.isEmpty) with
  | [] => .error .emptyDataError
  | header :: rest =>
    let cols := commaFields header
    let extra :=
      match rest with
      | [] => 0
      | first :: _ => (commaFields first).length - cols.length
    if rest.any (fun l => cols.length + extra < (commaFields l).length) then
      .error .parserError
    else
      .ok ⟨cols, List.range rest.length,
        rest.map (fun l =>
          let fs := commaFields l
          (fs ++ List.replicate (cols.length + extra - fs.length) "").drop extra)⟩

/-- `load_file` of `data.py`: a bare `pd.read_csv(path)`; any exception
propagates to the caller. -/
def load_file (name : String) (st : FileState) : Except PyError DataFrame :=
  match st with
  | .missing => .error (.fileNotFoundError name)
  | .present lines => read_csv lines

/-- `load_data` of `data.py`: `Path(folder).iterdir()` (raises
`FileNotFoundError` when the folder is missing), filter
`file.suffix == ".csv"`, load each file in the comprehension (the first
exception propagates), then `pd.concat(all_datasets, ignore_index=True)`
— which raises `ValueError` when given an empty list. -/
def load_data (fsys : FileSystem) (folder : String) : Except PyError DataFrame :=
  match lookupDir fsys folder with
  | none => .error (.fileNotFoundError folder)
  | some dir =>
    let files := dir.filter (fun e => pathSuffix e.name == ".csv")
    match files.mapM (fun e => load_file e.name e.state) with
    | .error e => .error e
    | .ok all_datasets =>
      if all_datasets.isEmpty then .error .valueErrorNoObjects
      else .ok (App.pdConcat all_datasets)

end DataPy

/-! ### Helper lemmas about the embedded loader -/

theorem splitFields_ne_nil (sep : Char) (l : List Char) : App.splitFields sep l ≠ [] := by
  cases l with
  | nil => simp [App.splitFields]
  | cons c cs =>
    simp only [App.splitFields]
    split
    · simp
    · split <;> simp

theorem semiFields_ne_nil (line : String) : App.semiFields line ≠ [] := by
  intro h
  exact splitFields_ne_nil ';' line.data (by simpa [App.semiFields] using h)

theorem filterMap_eq_map_of {α β : Type} (l : List α) (g : α → Option β) (f : α → β)
    (h : ∀ a ∈ l, g a = some (f a)) : l.filterMap g = l.map f := by
  induction l with
  | nil => rfl
  | cons a t ih =>
    rw [List.filterMap_cons, h a (by simp), List.map_cons,
      ih (fun x hx => h x (by simp [hx]))]

theorem filterMap_ite_skip {α β : Type} (l : List α) (p : α → Prop) [DecidablePred p]
    (f : α → β) :
    (l.filterMap fun a => if p a then none else some (f a))
      = (l.filter fun a => !decide (p a)).map f := by
  induction l with
  | nil => rfl
  | cons a t ih =>
    by_cases hp : p a <;> simp [List.filterMap_cons, List.filter_cons, hp, ih]

theorem flatMap_rows_keep (l : List DataFrame)
    (h : ∀ d ∈ l, d.isEmpty = true → d.rows = []) :
    (l.filter fun d => !d.isEmpty).flatMap DataFrame.rows = l.flatMap DataFrame.rows := by
  induction l with
  | nil => rfl
  | cons d t ih =>
    have ht := ih (fun x hx hex => h x (by simp [hx]) hex)
    cases hd : d.isEmpty with
    | true =>
      simp [List.filter_cons, hd, List.flatMap_cons, h d (by simp) hd, ht]
    | false =>
      simp [List.filter_cons, hd, List.flatMap_cons, ht]

theorem pdConcat_of_cols_eq (dfs : List DataFrame) (cols : List String)
    (hne : dfs ≠ []) (hcols : ∀ d ∈ dfs, d.cols = cols) :
    App.pdConcat dfs
      = ⟨cols, List.range (dfs.flatMap DataFrame.rows).length,
          dfs.flatMap DataFrame.rows⟩ := by
  cases dfs with
  | nil => exact absurd rfl hne
  | cons d0 t =>
    have h0 : d0.cols = cols := hcols d0 (by simp)
    have hall : (d0 :: t).all (fun d => d.cols == d0.cols) = true := by
      rw [List.all_eq_true]
      intro d hd
      exact beq_iff_eq.mpr ((hcols d hd).trans h0.symm)
    simp only [App.pdConcat]
    rw [if_pos hall, h0]

theorem load_file_ok (name : String) (lines : List String) (df : DataFrame)
    (h : App.read_csv lines = some df) :
    App.load_file name (.present lines) = (df, []) := by
  simp [App.load_file, h]

theorem read_csv_cols_ne_nil (lines : List String) (df : DataFrame)
    (h : App.read_csv lines = some df) : df.cols ≠ [] := by
  unfold App.read_csv at h
  cases hf : lines.filter (fun l => !l.data.isEmpty) with
  | nil => rw [hf] at h; exact absurd h (by simp)
  | cons header rest =>
    rw [hf] at h
    simp only [Option.some.injEq] at h
    intro hc
    exact semiFields_ne_nil header (by rw [← h] at hc; simpa using hc)

theorem read_csv_no_index (lines : List String) (header : String) (rest : List String)
    (hfl : lines.filter (fun l => !l.data.isEmpty) = header :: rest)
    (h1 : ∀ l ∈ rest.take 1, (App.semiFields l).length ≤ (App.semiFields header).length) :
    App.read_csv lines = some ⟨App.semiFields header,
      List.range (rest.filterMap (fun l =>
        if (App.semiFields header).length < (App.semiFields l).length then none
        else some (App.semiFields l ++ List.replicate
          ((App.semiFields header).length - (App.semiFields l).length) ""))).length,
      rest.filterMap (fun l =>
        if (App.semiFields header).length < (App.semiFields l).length then none
        else some (App.semiFields l ++ List.replicate
          ((App.semiFields header).length - (App.semiFields l).length) ""))⟩ := by
  have hextra : (match rest with
      | [] => 0
      | first :: _ => (App.semiFields first).length - (App.semiFields header).length) = 0 := by
    cases rest with
    | nil => rfl
    | cons first rest' =>
      exact Nat.sub_eq_zero_of_le (h1 first (by simp))
  simp only [App.read_csv, hfl]
  rw [hextra]
  simp only [Nat.add_zero, List.drop_zero]

theorem load_data_rows_spec (fsys : FileSystem) (folder : String)
    (dir : List DirEntry) (cols : List String)
    (hdir : lookupDir fsys folder = some dir)
    (hcsv : ∀ e ∈ dir, App.globCsv e.name = true)
    (hok : ∀ e ∈ dir, ∃ lines df, e.state = .present lines ∧
        App.read_csv lines = some df ∧ df.cols = cols) :
    (App.load_data fsys folder).1.rows
        = dir.flatMap (fun e => (App.load_file e.name e.state).1.rows)
      ∧ (App.load_data fsys folder).1.index
        = List.range (App.load_data fsys folder).1.rows.length := by
  have hfil : dir.filter (fun e => App.globCsv e.name) = dir :=
    List.filter_eq_self.mpr hcsv
  have hcontrib : ∀ e ∈ dir, (App.load_file e.name e.state).1.cols = cols ∧
      ((App.load_file e.name e.state).1.isEmpty = true →
        (App.load_file e.name e.state).1.rows = []) := by
    intro e he
    obtain ⟨lines, df, hst, hr, hc⟩ := hok e he
    rw [hst, load_file_ok e.name lines df hr]
    refine ⟨hc, ?_⟩
    intro hemp
    have hcn : df.cols ≠ [] := read_csv_cols_ne_nil lines df hr
    have hre : df.rows = [] ∨ df.cols = [] := by
      simpa [DataFrame.isEmpty] using hemp
    rcases hre with h1 | h1
    · exact h1
    · exact absurd h1 hcn
  by_cases hnil : dir = []
  · subst hnil
    simp [App.load_data, hdir, DataFrame.emptyDF]
  · have hne : dir.isEmpty = false := by
      cases dir
      · exact absurd rfl hnil
      · rfl
    simp only [App.load_data, hdir]
    rw [hfil]
    rw [hne]
    simp only [Bool.false_eq_true, if_false, List.map_map]
    set A := List.map ((fun r => r.1) ∘ fun e => App.load_file e.name e.state) dir with hA
    have hArows : A.flatMap DataFrame.rows
        = dir.flatMap fun e => (App.load_file e.name e.state).1.rows := by
      rw [hA, List.flatMap_map]
      rfl
    have hAmem : ∀ d ∈ A, d.cols = cols ∧ (d.isEmpty = true → d.rows = []) := by
      intro d hd
      rw [hA] at hd
      obtain ⟨e, he, rfl⟩ := List.mem_map.mp hd
      exact ⟨(hcontrib e he).1, (hcontrib e he).2⟩
    have hkeep := flatMap_rows_keep A (fun d hd => (hAmem d hd).2)
    by_cases hF : A.filter (fun d => !d.isEmpty) = []
    · rw [hF] at hkeep
      rw [hF]
      simp only [List.isEmpty_nil, if_true]
      constructor
      · rw [← hArows, ← hkeep]
        rfl
      · rfl
    · rw [if_neg (by simp [hF])]
      have hconc := pdConcat_of_cols_eq (A.filter (fun d => !d.isEmpty)) cols hF
        (fun d hd => (hAmem d (List.mem_filter.mp hd).1).1)
      rw [hconc]
      constructor
      · rw [hkeep, hArows]
      · simp

/-! ### Claim theorems -/

/-- C1: over a directory containing only well-formed CSV files with
identical columns, `load_data` returns a frame whose rows are precisely
the per-file data rows concatenated in discovery order with intra-file
order preserved, whose row count is the sum of the per-file data-row
counts, and whose index is a fresh 0-based identity (`0, 1, …`)
regardless of the original per-file row numbers. -/
theorem load_data_concat_in_order (fsys : FileSystem) (folder : String)
    (dir : List DirEntry) (cols : List String)
    (hdir : lookupDir fsys folder = some dir)
    (hcsv : ∀ e ∈ dir, App.globCsv e.name = true)
    (hok : ∀ e ∈ dir, ∃ lines df, e.state = .present lines ∧
        App.read_csv lines = some df ∧ df.cols = cols) :
    (App.load_data fsys folder).1.rows
        = dir.flatMap (fun e => (App.load_file e.name e.state).1.rows)
      ∧ (App.load_data fsys folder).1.rows.length
        = (dir.map (fun e => (App.load_file e.name e.state).1.rows.length)).sum
      ∧ (App.load_data fsys folder).1.index
        = List.range (App.load_data fsys folder).1.rows.length := by
  obtain ⟨h1, h2⟩ := load_data_rows_spec fsys folder dir cols hdir hcsv hok
  refine ⟨h1, ?_, h2⟩
  rw [h1, List.length_flatMap]
  rfl

theorem load_data_concat_in_order_witness :
    (App.load_data [("./data", [⟨"a.csv", FileState.present ["x;y", "1;2", "3;4"]⟩,
          ⟨"b.csv", FileState.present ["x;y", "5;6"]⟩])] "./data").1.rows
        = ([⟨"a.csv", FileState.present ["x;y", "1;2", "3;4"]⟩,
            ⟨"b.csv", FileState.present ["x;y", "5;6"]⟩] : List DirEntry).flatMap
            (fun e => (App.load_file e.name e.state).1.rows)
      ∧ (App.load_data [("./data", [⟨"a.csv", FileState.present ["x;y", "1;2", "3;4"]⟩,
          ⟨"b.csv", FileState.present ["x;y", "5;6"]⟩])] "./data").1.rows.length
        = (([⟨"a.csv", FileState.present ["x;y", "1;2", "3;4"]⟩,
            ⟨"b.csv", FileState.present ["x;y", "5;6"]⟩] : List DirEntry).map
            (fun e => (App.load_file e.name e.state).1.rows.length)).sum
      ∧ (App.load_data [("./data", [⟨"a.csv", FileState.present ["x;y", "1;2", "3;4"]⟩,
          ⟨"b.csv", FileState.present ["x;y", "5;6"]⟩])] "./data").1.index
        = List.range (App.load_data [("./data",
            [⟨"a.csv", FileState.present ["x;y", "1;2", "3;4"]⟩,
              ⟨"b.csv", FileState.present ["x;y", "5;6"]⟩])] "./data").1.rows.length := by
  refine load_data_concat_in_order
      [("./data", [⟨"a.csv", FileState.present ["x;y", "1;2", "3;4"]⟩,
          ⟨"b.csv", FileState.present ["x;y", "5;6"]⟩])] "./data"
      [⟨"a.csv", FileState.present ["x;y", "1;2", "3;4"]⟩,
          ⟨"b.csv", FileState.present ["x;y", "5;6"]⟩] ["x", "y"]
      rfl (by decide) ?_
  intro e he
  simp only [List.mem_cons, List.not_mem_nil, or_false] at he
  rcases he with rfl | rfl
  · exact ⟨_, _, rfl, rfl, rfl⟩
  · exact ⟨_, _, rfl, rfl, rfl⟩

/-- C2 as stated fails on the code (see the counterexample below): when
the malformed over-long line is the FIRST data row of its file, pandas'
implicit-index inference widens the expected row instead of skipping it.
Amended claim, proved here: for files whose first data row is not wider
than the header, `load_file` parses with the fixed semicolon delimiter
under a warn-and-skip bad-line policy, and the policy is not fatal — a
directory holding one well-formed file and one file with malformed
(over-long) lines after a non-over-long first data row yields every
well-formed row of both files, with exactly the malformed lines dropped
(short rows are padded with NaN, modelled `""`). -/
theorem load_data_warn_and_skip (fsys : FileSystem) (folder an bn ha : String)
    (ra rb : List String)
    (hdir : lookupDir fsys folder
      = some [⟨an, .present (ha :: ra)⟩, ⟨bn, .present (ha :: rb)⟩])
    (han : App.globCsv an = true) (hbn : App.globCsv bn = true)
    (hha : ha.data ≠ [])
    (hra : ∀ l ∈ ra, l.data ≠ [] ∧ (App.semiFields l).length = (App.semiFields ha).length)
    (hrb : ∀ l ∈ rb, l.data ≠ [])
    (hrb1 : ∀ l ∈ rb.take 1, (App.semiFields l).length ≤ (App.semiFields ha).length) :
    (App.load_data fsys folder).1.rows
      = ra.map App.semiFields
        ++ (rb.filter (fun l =>
              !decide ((App.semiFields ha).length < (App.semiFields l).length))).map
            (fun l => App.semiFields l
              ++ List.replicate
                  ((App.semiFields ha).length - (App.semiFields l).length) "") := by
  have hfilA : (ha :: ra).filter (fun l => !l.data.isEmpty) = ha :: ra := by
    rw [List.filter_eq_self]
    intro l hl
    rcases List.mem_cons.mp hl with rfl | hl
    · simpa using hha
    · simpa using (hra l hl).1
  have hfilB : (ha :: rb).filter (fun l => !l.data.isEmpty) = ha :: rb := by
    rw [List.filter_eq_self]
    intro l hl
    rcases List.mem_cons.mp hl with rfl | hl
    · simpa using hha
    · simpa using hrb l hl
  have hkeepA : ra.filterMap (fun l =>
      if (App.semiFields ha).length < (App.semiFields l).length then none
      else some (App.semiFields l
        ++ List.replicate ((App.semiFields ha).length - (App.semiFields l).length) ""))
      = ra.map App.semiFields := by
    apply filterMap_eq_map_of
    intro l hl
    rw [(hra l hl).2]
    simp
  have hkeepB := filterMap_ite_skip rb
    (fun l => (App.semiFields ha).length < (App.semiFields l).length)
    (fun l => App.semiFields l
      ++ List.replicate ((App.semiFields ha).length - (App.semiFields l).length) "")
  have hrcA : App.read_csv (ha :: ra)
      = some ⟨App.semiFields ha, List.range (ra.map App.semiFields).length,
          ra.map App.semiFields⟩ := by
    rw [read_csv_no_index (ha :: ra) ha ra hfilA
        (fun l hl => le_of_eq (hra l (List.take_subset 1 ra hl)).2),
      hkeepA]
  have hrcB : App.read_csv (ha :: rb)
      = some ⟨App.semiFields ha,
          List.range ((rb.filter (fun l =>
            !decide ((App.semiFields ha).length < (App.semiFields l).length))).map
              (fun l => App.semiFields l
                ++ List.replicate
                    ((App.semiFields ha).length - (App.semiFields l).length) "")).length,
          (rb.filter (fun l =>
            !decide ((App.semiFields ha).length < (App.semiFields l).length))).map
              (fun l => App.semiFields l
                ++ List.replicate
                    ((App.semiFields ha).length - (App.semiFields l).length) "")⟩ := by
    rw [read_csv_no_index (ha :: rb) ha rb hfilB hrb1, hkeepB]
  have hcsvh : ∀ e ∈ ([⟨an, .present (ha :: ra)⟩, ⟨bn, .present (ha :: rb)⟩] : List DirEntry),
      App.globCsv e.name = true := by
    intro e he
    rcases List.mem_cons.mp he with rfl | he
    · exact han
    · simp only [List.mem_singleton] at he
      subst he
      exact hbn
  have hokh : ∀ e ∈ ([⟨an, .present (ha :: ra)⟩, ⟨bn, .present (ha :: rb)⟩] : List DirEntry),
      ∃ lines df, e.state = FileState.present lines ∧ App.read_csv lines = some df ∧
        df.cols = App.semiFields ha := by
    intro e he
    rcases List.mem_cons.mp he with rfl | he
    · exact ⟨_, _, rfl, hrcA, rfl⟩
    · simp only [List.mem_singleton] at he
      subst he
      exact ⟨_, _, rfl, hrcB, rfl⟩
  have hspec := load_data_rows_spec fsys folder
      [⟨an, .present (ha :: ra)⟩, ⟨bn, .present (ha :: rb)⟩] (App.semiFields ha)
      hdir hcsvh hokh
  rw [hspec.1]
  simp only [List.flatMap_cons, List.flatMap_nil, List.append_nil]
  rw [load_file_ok an _ _ hrcA, load_file_ok bn _ _ hrcB]

theorem load_data_warn_and_skip_witness :
    (App.load_data [("./data", [⟨"a.csv", FileState.present ["x;y", "1;2"]⟩,
          ⟨"b.csv", FileState.present ["x;y", "6;7", "3;4;5"]⟩])] "./data").1.rows
      = ["1;2"].map App.semiFields
        ++ (["6;7", "3;4;5"].filter (fun l =>
              !decide ((App.semiFields "x;y").length < (App.semiFields l).length))).map
            (fun l => App.semiFields l
              ++ List.replicate
                  ((App.semiFields "x;y").length - (App.semiFields l).length) "") :=
  load_data_warn_and_skip
    [("./data", [⟨"a.csv", FileState.present ["x;y", "1;2"]⟩,
        ⟨"b.csv", FileState.present ["x;y", "6;7", "3;4;5"]⟩])] "./data"
    "a.csv" "b.csv" "x;y" ["1;2"] ["6;7", "3;4;5"]
    rfl (by decide) (by decide) (by decide) (by decide) (by decide) (by decide)

/-- C2's counterexample: the claim as stated predicts that the malformed
line `3;4;5` of `b.csv` is warn-skipped, leaving the well-formed rows
`[[1,2],[6,7]]` of both files. Because `3;4;5` is the FIRST data row of
its file, the parser instead infers an implicit index (the header is one
entry narrower than the data), widens the expected row to three fields
and skips nothing: `b.csv` contributes `[4,5]` and `[7,NaN]`, so the
combined rows are `[[1,2],[4,5],[7,NaN]]`, not what the claim says. -/
theorem warn_skip_first_line_counterexample :
    (App.load_data [("./data", [⟨"a.csv", FileState.present ["x;y", "1;2"]⟩,
          ⟨"b.csv", FileState.present ["x;y", "3;4;5", "6;7"]⟩])] "./data").1.rows
        = [["1", "2"], ["4", "5"], ["7", ""]]
      ∧ (App.load_data [("./data", [⟨"a.csv", FileState.present ["x;y", "1;2"]⟩,
          ⟨"b.csv", FileState.present ["x;y", "3;4;5", "6;7"]⟩])] "./data").1.rows
        ≠ [["1", "2"], ["6", "7"]] := by
  decide

/-- C5: when CSV files were discovered but every one of them contributed
an empty frame, `load_data` returns the empty frame and reports the
no-usable-data diagnostic after the per-file diagnostics. -/
theorem load_data_no_usable_data (fsys : FileSystem) (folder : String)
    (dir : List DirEntry)
    (h1 : lookupDir fsys folder = some dir)
    (h2 : dir.filter (fun e => App.globCsv e.name) ≠ [])
    (h3 : ∀ e ∈ dir, (App.load_file e.name e.state).1.isEmpty = true) :
    (App.load_data fsys folder).1 = DataFrame.emptyDF
      ∧ (App.load_data fsys folder).2
        = (dir.filter (fun e => App.globCsv e.name)).flatMap
            (fun e => (App.load_file e.name e.state).2) ++ [Message.noUsableData] := by
  have hF : ((dir.filter (fun e => App.globCsv e.name)).map
      ((fun r => r.1) ∘ fun e => App.load_file e.name e.state)).filter
        (fun d => !d.isEmpty) = [] := by
    rw [List.filter_eq_nil_iff]
    intro d hd
    obtain ⟨e, he, rfl⟩ := List.mem_map.mp hd
    simp [h3 e (List.mem_of_mem_filter he)]
  simp only [App.load_data, h1, List.map_map]
  rw [if_neg (by simp [h2]), hF]
  simp [List.flatMap_map]

theorem load_data_no_usable_data_witness :
    (App.load_data [("./data", [⟨"a.csv", FileState.present []⟩])] "./data").1
        = DataFrame.emptyDF
      ∧ (App.load_data [("./data", [⟨"a.csv", FileState.present []⟩])] "./data").2
        = (([⟨"a.csv", FileState.present []⟩] : List DirEntry).filter
              (fun e => App.globCsv e.name)).flatMap
            (fun e => (App.load_file e.name e.state).2) ++ [Message.noUsableData] :=
  load_data_no_usable_data [("./data", [⟨"a.csv", FileState.present []⟩])] "./data"
    [⟨"a.csv", FileState.present []⟩] rfl (by decide) (by decide)

/-- C6 fails on the code in its reporting conjunct: a file with zero data
rows is one of the per-file failures the claim says `load_file` reports,
but a header-only file parses to an empty frame without raising any
exception, so `load_file` emits no diagnostic for it. The failure is
indeed non-fatal — the file's contribution is empty and the remaining
files still load, as the combined rows below show — yet it is
unreported. -/
theorem zero_row_failure_unreported :
    (App.load_file "empty.csv" (FileState.present ["x;y"])).1.rows = []
      ∧ (App.load_file "empty.csv" (FileState.present ["x;y"])).2 = []
      ∧ (App.load_data [("./data", [⟨"empty.csv", FileState.present ["x;y"]⟩,
            ⟨"good.csv", FileState.present ["x;y", "1;2"]⟩])] "./data").1.rows
        = [["1", "2"]] := by
  decide

/-- C3: when `folder_path` does not reference an existing directory,
`load_data` reports the directory-not-found diagnostic and returns the
empty frame instead of raising. -/
theorem load_data_missing_dir (fsys : FileSystem) (folder : String)
    (h : lookupDir fsys folder = none) :
    App.load_data fsys folder = (DataFrame.emptyDF, [Message.dirNotFound folder]) := by
  simp [App.load_data, h]

theorem load_data_missing_dir_witness :
    App.load_data [] "./data"
      = (DataFrame.emptyDF, [Message.dirNotFound "./data"]) :=
  load_data_missing_dir [] "./data" rfl

/-- C4: when the directory exists but no immediate child name ends in
`.csv`, `load_data` reports the no-input-files diagnostic and returns the
empty frame. -/
theorem load_data_no_csv_files (fsys : FileSystem) (folder : String)
    (dir : List DirEntry)
    (h1 : lookupDir fsys folder = some dir)
    (h2 : ∀ e ∈ dir, App.globCsv e.name = false) :
    App.load_data fsys folder = (DataFrame.emptyDF, [Message.noCsvFiles folder]) := by
  have hfil : dir.filter (fun e => App.globCsv e.name) = [] :=
    List.filter_eq_nil_iff.mpr (by intro e he; simp [h2 e he])
  simp [App.load_data, h1, hfil]

theorem load_data_no_csv_files_witness :
    App.load_data [("./data", [⟨"notes.txt", FileState.present ["x;y", "1;2"]⟩])] "./data"
      = (DataFrame.emptyDF, [Message.noCsvFiles "./data"]) :=
  load_data_no_csv_files _ _ [⟨"notes.txt", FileState.present ["x;y", "1;2"]⟩]
    rfl (by decide)

/-- C8: the load is a function of the directory contents alone — two
filesystem states in which the folder resolves to the same listing give
row-for-row identical results, so repeating the call over unchanged
contents repeats the result. -/
theorem load_data_deterministic (fsys1 fsys2 : FileSystem) (folder : String)
    (h : lookupDir fsys1 folder = lookupDir fsys2 folder) :
    App.load_data fsys1 folder = App.load_data fsys2 folder := by
  unfold App.load_data
  rw [h]

theorem load_data_deterministic_witness :
    App.load_data [("./data", [⟨"a.csv", FileState.present ["x;y", "1;2"]⟩])] "./data"
      = App.load_data [("other", []), ("./data", [⟨"a.csv", FileState.present ["x;y", "1;2"]⟩])]
          "./data" :=
  load_data_deterministic _ _ "./data" (by decide)

/-- C9: whenever `load_data` comes back empty, the page emits exactly one
further diagnostic, stops, and never reaches the query-engine call. -/
theorem empty_load_halts_before_query (fsys : FileSystem) (folder : String)
    (h : (App.load_data fsys folder).1.isEmpty = true) :
    (App.mainFlow fsys folder).1 = App.FlowOutcome.halt
      ∧ App.FlowOutcome.attemptsQuery (App.mainFlow fsys folder).1 = false
      ∧ (App.mainFlow fsys folder).2
        = (App.load_data fsys folder).2 ++ [Message.noDataLoaded] := by
  simp [App.mainFlow, h, App.FlowOutcome.attemptsQuery]

theorem empty_load_halts_before_query_witness :
    (App.mainFlow [] "./data").1 = App.FlowOutcome.halt
      ∧ App.FlowOutcome.attemptsQuery (App.mainFlow [] "./data").1 = false
      ∧ (App.mainFlow [] "./data").2
        = (App.load_data [] "./data").2 ++ [Message.noDataLoaded] :=
  empty_load_halts_before_query [] "./data" (by decide)

/-- C10: the loader of `data.py` is partial at its interface — a missing
folder raises `FileNotFoundError` out of `iterdir`, and an existing
folder with no `.csv`-suffixed file raises the `ValueError` that
`pd.concat` throws on an empty list; neither returns an empty frame. -/
theorem data_py_load_data_partial (fsys1 fsys2 : FileSystem)
    (folder1 folder2 : String) (dir : List DirEntry)
    (h1 : lookupDir fsys1 folder1 = none)
    (h2 : lookupDir fsys2 folder2 = some dir)
    (h3 : ∀ e ∈ dir, (DataPy.pathSuffix e.name == ".csv") = false) :
    DataPy.load_data fsys1 folder1 = .error (.fileNotFoundError folder1)
      ∧ DataPy.load_data fsys2 folder2 = .error .valueErrorNoObjects := by
  constructor
  · simp [DataPy.load_data, h1]
  · have hfil : dir.filter (fun e => DataPy.pathSuffix e.name == ".csv") = [] :=
      List.filter_eq_nil_iff.mpr (by intro e he; simp [h3 e he])
    simp only [DataPy.load_data, h2, hfil]
    rfl

theorem data_py_load_data_partial_witness :
    DataPy.load_data [] "./data"
        = .error (.fileNotFoundError "./data")
      ∧ DataPy.load_data [("./data", [⟨"notes.txt", FileState.present ["x,y"]⟩])] "./data"
        = .error .valueErrorNoObjects :=
  data_py_load_data_partial [] [("./data", [⟨"notes.txt", FileState.present ["x,y"]⟩])]
    "./data" "./data" [⟨"notes.txt", FileState.present ["x,y"]⟩] rfl rfl (by decide)

/-- C7 fails on the code: a header-only file contributes no rows, yet no
diagnostic names it. `pd.read_csv` raises `EmptyDataError` only when
there is no parseable content at all, so a header-only file parses to an
empty frame without any exception, `load_file` emits nothing, and
`load_data` silently drops the frame: the only message of the run below
is the success message, which names neither file. -/
theorem header_only_file_silently_skipped :
    (App.load_data [("./data", [⟨"a.csv", FileState.present ["x;y", "1;2"]⟩,
          ⟨"b.csv", FileState.present ["x;y"]⟩])] "./data").2
        = [Message.successCombined 1]
      ∧ (App.load_file "b.csv" (FileState.present ["x;y"])).2 = []
      ∧ (App.load_file "b.csv" (FileState.present ["x;y"])).1.rows = [] := by
  decide

end ChatBot
